import Mathlib

/-!
Verification of the Sensor-Graph repository (sensor_inserter.py and
insert_wave_mysql.py).

Modelling conventions:
* Python floating-point arithmetic is modelled over exact numbers: ℚ for
  the random/continuation generators of sensor_inserter.py (everything
  there is rounding, clamping and addition), and ℝ for the wave generator
  of insert_wave_mysql.py (which uses math.sin).
* Python's round(x, n) is modelled by rounding x * 10^n to the nearest
  integer and dividing back.  Python breaks ties to even while Mathlib's
  round breaks ties upward; no claim in this development evaluates round
  at a tie, so the difference is immaterial.
* random.gauss and random.uniform draws are inputs of the model: a reading
  generator becomes a pure function of the previous reading and the drawn
  noise values.
* The database driver is modelled as a store behaviour: the outcome of
  each insert attempt and of each reconnect attempt is an input to the
  per-tick step function, and the step function records the calls it makes
  to the store in an event log.
-/

/-- Round a rational to `n` decimal places, modelling Python's
`round(x, n)` (up to tie-breaking, see the header). -/
def roundTo (n : ℕ) (x : ℚ) : ℚ :=
  (round (x * 10 ^ n) : ℤ) / 10 ^ n

theorem roundTo_mono (n : ℕ) {x y : ℚ} (h : x ≤ y) :
    roundTo n x ≤ roundTo n y := by
  unfold roundTo
  have hp : (0 : ℚ) < 10 ^ n := by positivity
  have hr : round (x * 10 ^ n) ≤ round (y * 10 ^ n) := by
    rw [round_eq, round_eq]
    exact Int.floor_mono (by nlinarith)
  exact (div_le_div_iff_of_pos_right hp).mpr (by exact_mod_cast hr)

/-- A rational that is an integer multiple of `10 ^ (-n)` is a fixed point
of rounding to `n` decimals. -/
theorem roundTo_eq_self (n : ℕ) (x : ℚ) (m : ℤ) (h : x * 10 ^ n = (m : ℚ)) :
    roundTo n x = x := by
  have hp : (0 : ℚ) < 10 ^ n := by positivity
  unfold roundTo
  rw [h, round_intCast]
  field_simp at h ⊢
  linarith [h]

theorem roundTo_nonneg (n : ℕ) {x : ℚ} (h : 0 ≤ x) : 0 ≤ roundTo n x := by
  have h0 : roundTo n 0 = 0 := roundTo_eq_self n 0 0 (by norm_num)
  calc (0 : ℚ) = roundTo n 0 := h0.symm
    _ ≤ roundTo n x := roundTo_mono n h

/-- Rounding keeps a value inside an interval whose endpoints are exact at
the rounding precision. -/
theorem roundTo_mem_Icc (n : ℕ) {lo hi x : ℚ} (mlo mhi : ℤ)
    (hlo : lo * 10 ^ n = (mlo : ℚ)) (hhi : hi * 10 ^ n = (mhi : ℚ))
    (h1 : lo ≤ x) (h2 : x ≤ hi) :
    lo ≤ roundTo n x ∧ roundTo n x ≤ hi := by
  constructor
  · calc lo = roundTo n lo := (roundTo_eq_self n lo mlo hlo).symm
      _ ≤ roundTo n x := roundTo_mono n h1
  · calc roundTo n x ≤ roundTo n hi := roundTo_mono n h2
      _ = hi := roundTo_eq_self n hi mhi hhi

namespace SensorInserter

/-- A row of the `sensor_readings` table: the tuple
(latitude, longitude, moisture, temperature, ph, ec, nitrogen,
phosphorus, potassium) produced by the generators of sensor_inserter.py. -/
structure Reading9 where
  latitude : ℚ
  longitude : ℚ
  moisture : ℚ
  temperature : ℚ
  ph : ℚ
  ec : ℚ
  nitrogen : ℚ
  phosphorus : ℚ
  potassium : ℚ
  deriving Repr, DecidableEq

/-- One value per field, holding the random draws consumed by a generator
call: the `random.uniform` draws for `generate_random_reading`, or the
`random.gauss` draws for `vary_reading`. -/
structure Noise9 where
  latitude : ℚ
  longitude : ℚ
  moisture : ℚ
  temperature : ℚ
  ph : ℚ
  ec : ℚ
  nitrogen : ℚ
  phosphorus : ℚ
  potassium : ℚ
  deriving Repr, DecidableEq

/-- The all-zero noise/draw vector. -/
def Noise9.zero : Noise9 :=
  ⟨0, 0, 0, 0, 0, 0, 0, 0, 0⟩

/-- generate_random_reading from sensor_inserter.py: each field is a
rounded uniform draw.  `u` holds the values returned by the
`random.uniform` calls (their range constraints are hypotheses of the
theorems, not of the definition). -/
def generate_random_reading (u : Noise9) : Reading9 where
  latitude := roundTo 7 u.latitude
  longitude := roundTo 7 u.longitude
  moisture := roundTo 2 u.moisture
  temperature := roundTo 2 u.temperature
  ph := roundTo 2 u.ph
  ec := roundTo 3 u.ec
  nitrogen := roundTo 3 u.nitrogen
  phosphorus := roundTo 3 u.phosphorus
  potassium := roundTo 3 u.potassium

/-- vary_reading from sensor_inserter.py: previous value plus a Gaussian
draw, with `max`/`min` clamps exactly where the source applies them
(moisture, ph, ec, nitrogen, phosphorus, potassium — not latitude,
longitude or temperature), then rounding, which in the source is the
outermost operation. -/
def vary_reading (prev : Reading9) (g : Noise9) : Reading9 where
  latitude := roundTo 7 (prev.latitude + g.latitude)
  longitude := roundTo 7 (prev.longitude + g.longitude)
  moisture := roundTo 2 (max 0 (min 100 (prev.moisture + g.moisture)))
  temperature := roundTo 2 (prev.temperature + g.temperature)
  ph := roundTo 2 (max 0 (min 14 (prev.ph + g.ph)))
  ec := roundTo 3 (max 0 (prev.ec + g.ec))
  nitrogen := roundTo 3 (max 0 (prev.nitrogen + g.nitrogen))
  phosphorus := roundTo 3 (max 0 (prev.phosphorus + g.phosphorus))
  potassium := roundTo 3 (max 0 (prev.potassium + g.potassium))

end SensorInserter

namespace InsertWave

noncomputable section

open Real

/-- clamp from insert_wave_mysql.py: `max(lo, min(hi, x))`, with the
source's argument order `clamp(x, lo, hi)`. -/
def clamp (x lo hi : ℝ) : ℝ :=
  max lo (min hi x)

/-- Round a real to `n` decimal places, modelling Python's `round(x, n)`
on the real-number idealisation of the wave generator. -/
def roundR (n : ℕ) (x : ℝ) : ℝ :=
  (round (x * 10 ^ n) : ℤ) / 10 ^ n

/-- The angle computed at the top of generate_values:
`2.0 * math.pi * (elapsed_seconds / period)`. -/
def angle (elapsed_seconds period : ℝ) : ℝ :=
  2 * π * (elapsed_seconds / period)

/-- The moisture value of generate_values before rounding and clamping:
`40.0 + 20.0 * math.sin(angle) + noise_moisture`. -/
def moisture_raw (elapsed_seconds period noise_moisture : ℝ) : ℝ :=
  40 + 20 * sin (angle elapsed_seconds period) + noise_moisture

/-- The temperature value of generate_values before rounding and clamping:
`18.0 + 5.0 * math.sin(angle + 0.5) + noise_temp`. -/
def temperature_raw (elapsed_seconds period noise_temp : ℝ) : ℝ :=
  18 + 5 * sin (angle elapsed_seconds period + 0.5) + noise_temp

/-- The ph value of generate_values before rounding and clamping:
`6.8 + 0.3 * math.sin(angle + 1.0) + noise_ph`. -/
def ph_raw (elapsed_seconds period noise_ph : ℝ) : ℝ :=
  6.8 + 0.3 * sin (angle elapsed_seconds period + 1.0) + noise_ph

/-- The battery value of generate_values before rounding and clamping:
baseline 3.70, minus linear decay `(0.02 / 3600) * elapsed_seconds`, plus
`0.03 * math.sin(angle + 2.0) + noise_batt`. -/
def battery_raw (elapsed_seconds period noise_batt : ℝ) : ℝ :=
  3.70 - (0.02 / 3600) * elapsed_seconds
    + 0.03 * sin (angle elapsed_seconds period + 2.0) + noise_batt

/-- The four values returned by generate_values, in order
(moisture, temperature, ph, battery). -/
structure WaveVals where
  moisture : ℝ
  temperature : ℝ
  ph : ℝ
  battery : ℝ

/-- generate_values from insert_wave_mysql.py, with the four
`random.uniform` jitter draws as inputs: each raw sinusoid value is
rounded to 2 decimals and then clamped to its range. -/
def generate_values (elapsed_seconds period nm nt np nb : ℝ) : WaveVals where
  moisture := clamp (roundR 2 (moisture_raw elapsed_seconds period nm)) 0 100
  temperature :=
    clamp (roundR 2 (temperature_raw elapsed_seconds period nt)) (-50) 100
  ph := clamp (roundR 2 (ph_raw elapsed_seconds period np)) 0 14
  battery := clamp (roundR 2 (battery_raw elapsed_seconds period nb)) 0 10

/-- Modelled from the spec (for the refinement comparison of the wave
formula): `value = baseline + amplitude * sin(2π·elapsed/period + phase)
+ uniform_jitter`. -/
def waveField (baseline amplitude phase jitter elapsed period : ℝ) : ℝ :=
  baseline + amplitude * sin (2 * π * elapsed / period + phase) + jitter

theorem clamp_mem {lo hi : ℝ} (x : ℝ) (h : lo ≤ hi) :
    lo ≤ clamp x lo hi ∧ clamp x lo hi ≤ hi := by
  unfold clamp
  constructor
  · exact le_max_left _ _
  · exact max_le h (min_le_left _ _)

end

end InsertWave

namespace SensorInserter

/-- Why an insert attempt failed.  insert_reading in sensor_inserter.py
catches every `mysql.connector.Error` alike, so the cause is carried in
the model only to let theorems speak about unrecoverable failures; the
step function never inspects it, mirroring the source. -/
inductive FailCause where
  | transient
  | unrecoverable
  deriving Repr, DecidableEq

/-- Result of one `insert_reading` call as decided by the database:
either the INSERT succeeds or it raises a `mysql.connector.Error` with
some cause. -/
inductive InsertRes where
  | success
  | failure (cause : FailCause)
  deriving Repr, DecidableEq

/-- The boolean that insert_reading returns for this database response. -/
def InsertRes.toBool : InsertRes → Bool
  | .success => true
  | .failure _ => false

/-- The per-tick inputs that do not come from the store: the regime draw
(`random.random() < RANDOM_PROBABILITY`), the uniform draws used if the
regime is full-random, the Gaussian draws used otherwise, and the
`now_str()` timestamp (abstracted as a natural number). -/
structure TickInput where
  regime : Bool
  u : Noise9
  g : Noise9
  t : ℕ

/-- The reading generated on a tick: full-random when the Bernoulli draw
fires, otherwise a variation of the previous reading.  A pure function of
the tick input and the previous reading — the store is not an argument. -/
def genReading (ti : TickInput) (prev : Reading9) : Reading9 :=
  if ti.regime then generate_random_reading ti.u else vary_reading prev ti.g

/-- Calls the main loop makes on the database, in order. -/
inductive SEvent where
  | insert (conn : ℕ) (vals : Reading9) (recordedAt : ℕ) (ok : Bool)
  | close (conn : ℕ)
  | reconnect (result : Option ℕ)
  deriving Repr, DecidableEq

/-- The store-side behaviour of one tick: whether `conn.is_connected()`
reports true on the error path, the database's response to the first
INSERT, the result of `connect_db()` (None on failure), and the response
to the retried INSERT. -/
structure StoreBeh where
  isConnected : Bool
  ins1 : InsertRes
  reconnect : Option ℕ
  ins2 : InsertRes

/-- The one uncaught error of the loop body: calling insert_reading with
`conn = None` evaluates `None.cursor()`, raising an AttributeError that
the `except Error` clause of insert_reading does not catch. -/
inductive RunError where
  | noneConn
  deriving Repr, DecidableEq

/-- State and log after one tick of the main loop of sensor_inserter.py
for the single configured sensor. -/
structure TickRes where
  conn2 : Option ℕ
  lastReading : Reading9
  log : List SEvent

/-- One tick of the main loop of sensor_inserter.py (one sensor):
generate the reading, take the timestamp, attempt the insert; on failure
close the handle if is_connected(), call connect_db once, and if it
returned a connection retry the insert once with the same values and
timestamp; finally store the generated reading in last_readings.  With
`conn = None` (possible after an earlier failed reconnect) the tick
raises. -/
def tickStep (conn : Option ℕ) (prev : Reading9) (ti : TickInput)
    (beh : StoreBeh) : Except RunError TickRes :=
  match conn with
  | none => .error .noneConn
  | some c =>
    let r := genReading ti prev
    match beh.ins1 with
    | .success => .ok ⟨some c, r, [.insert c r ti.t true]⟩
    | .failure _ =>
      let closeLog : List SEvent := if beh.isConnected then [.close c] else []
      match beh.reconnect with
      | none =>
        .ok ⟨none, r, .insert c r ti.t false :: closeLog ++ [.reconnect none]⟩
      | some c2 =>
        .ok ⟨some c2, r,
          .insert c r ti.t false :: closeLog ++
            [.reconnect (some c2), .insert c2 r ti.t beh.ins2.toBool]⟩

/-- The event log of a tick (empty if the tick raised). -/
def tickLog (res : Except RunError TickRes) : List SEvent :=
  match res with
  | .ok tr => tr.log
  | .error _ => []

/-- The last_readings entry after a tick, if the tick did not raise. -/
def tickLast (res : Except RunError TickRes) : Option Reading9 :=
  match res with
  | .ok tr => some tr.lastReading
  | .error _ => none

/-- Number of insert_reading calls recorded in a log. -/
def countInserts : List SEvent → ℕ
  | [] => 0
  | .insert _ _ _ _ :: rest => 1 + countInserts rest
  | _ :: rest => countInserts rest

/-- Number of connect_db (reconnect) calls recorded in a log. -/
def countReconnects : List SEvent → ℕ
  | [] => 0
  | .reconnect _ :: rest => 1 + countReconnects rest
  | _ :: rest => countReconnects rest

/-- Values and timestamp carried by each insert_reading call in a log. -/
def insertArgs : List SEvent → List (Reading9 × ℕ)
  | [] => []
  | .insert _ vals t _ :: rest => (vals, t) :: insertArgs rest
  | _ :: rest => insertArgs rest

/-- The main loop of sensor_inserter.py run over a finite list of ticks
(the stop-flag check and the inter-tick wait, which do not touch the
store, are modelled separately): each tick is `tickStep`, threading the
connection handle and the last reading; an uncaught error at any tick
propagates out of the loop and terminates it. -/
def runSensor : Option ℕ → Reading9 → List (TickInput × StoreBeh) →
    Except RunError (Option ℕ × Reading9)
  | conn, prev, [] => .ok (conn, prev)
  | conn, prev, (ti, beh) :: rest => do
    let tr ← tickStep conn prev ti beh
    runSensor tr.conn2 tr.lastReading rest

/-- The inter-tick wait of sensor_inserter.py: up to `fuel` iterations
(`int(INTERVAL_SECONDS * 10)` in the source), each checking the stop flag
and sleeping 0.1 s; `flag k` tells whether stop_requested is visible at
the check performed after `k` completed sleeps.  Returns the number of
0.1 s sleeps executed. -/
def waitSleeps (flag : ℕ → Bool) : ℕ → ℕ → ℕ
  | 0, _ => 0
  | fuel + 1, k => if flag k then 0 else 1 + waitSleeps flag fuel (k + 1)

end SensorInserter

namespace InsertWave

/-- Result of one `cur.execute(INSERT_SQL, …)` in insert_wave_mysql.py:
success, an `errors.OperationalError` (the transient class the source
singles out), or any other exception (caught by the generic handler). -/
inductive WIns where
  | success
  | operational
  | otherError
  deriving Repr, DecidableEq

/-- Store-side behaviour of one wave-loop tick: the response to the first
INSERT, the outcomes of the `open_conn` attempts inside try_reconnect
(attempt `i` succeeds iff `opens i`), and the response to the retried
INSERT. -/
structure WaveBeh where
  ins1 : WIns
  opens : ℕ → Bool
  ins2 : WIns

/-- try_reconnect from insert_wave_mysql.py with its default
`attempts=3`: try open_conn up to `fuel` times, returning whether one
succeeded and how many attempts were used (the final exception is re-raised
by the source when all fail). -/
def tryReconnectAux (opens : ℕ → Bool) : ℕ → ℕ → Bool × ℕ
  | 0, used => (false, used)
  | fuel + 1, used =>
    if opens used then (true, used + 1) else tryReconnectAux opens fuel (used + 1)

/-- Calls the wave loop makes on the database, in order.  `V` is the type
of the value tuple computed by generate_values at the top of the loop
body. -/
inductive WEvent (V : Type) where
  | insert (conn : ℕ) (vals : V) (ok : Bool)
  | close (conn : ℕ)
  | reconnectCall (ok : Bool) (attempts : ℕ)

/-- Outcome of one wave-loop tick: row inserted, reading dropped on the
reconnect path (`except Exception as e2 … continue`), or dropped by the
generic handler (`except Exception as e … continue`). -/
inductive WOutcome where
  | inserted
  | droppedTransient
  | droppedOther
  deriving Repr, DecidableEq

/-- State and log after one tick of the wave loop. -/
structure WTickRes (V : Type) where
  conn2 : ℕ
  outcome : WOutcome
  log : List (WEvent V)

/-- One tick of the `while True` loop of insert_wave_mysql.py, given the
values `v` computed by generate_values for this tick: attempt the INSERT;
on OperationalError close the handle, call try_reconnect once, and if it
yields a connection (`newConn`) retry the same INSERT once; any other
exception drops the reading with no reconnect.  Every path continues the
loop. -/
def waveTickStep {V : Type} (conn newConn : ℕ) (v : V) (beh : WaveBeh) :
    WTickRes V :=
  match beh.ins1 with
  | .success => ⟨conn, .inserted, [.insert conn v true]⟩
  | .operational =>
    let rec2 := tryReconnectAux beh.opens 3 0
    if rec2.1 then
      match beh.ins2 with
      | .success =>
        ⟨newConn, .inserted,
          [.insert conn v false, .close conn, .reconnectCall true rec2.2,
            .insert newConn v true]⟩
      | _ =>
        ⟨newConn, .droppedTransient,
          [.insert conn v false, .close conn, .reconnectCall true rec2.2,
            .insert newConn v false]⟩
    else
      ⟨conn, .droppedTransient,
        [.insert conn v false, .close conn, .reconnectCall false rec2.2]⟩
  | .otherError => ⟨conn, .droppedOther, [.insert conn v false]⟩

/-- Number of INSERT executions recorded in a wave-loop log. -/
def countWInserts {V : Type} : List (WEvent V) → ℕ
  | [] => 0
  | .insert _ _ _ :: rest => 1 + countWInserts rest
  | _ :: rest => countWInserts rest

/-- Number of try_reconnect calls recorded in a wave-loop log. -/
def countWReconnects {V : Type} : List (WEvent V) → ℕ
  | [] => 0
  | .reconnectCall _ _ :: rest => 1 + countWReconnects rest
  | _ :: rest => countWReconnects rest

/-- The value tuple carried by each INSERT execution in a log. -/
def wInsertVals {V : Type} : List (WEvent V) → List V
  | [] => []
  | .insert _ v _ :: rest => v :: wInsertVals rest
  | _ :: rest => wInsertVals rest

/-- The clamp ranges of the data model for the wave variant's four
fields. -/
def waveBounds (w : WaveVals) : Prop :=
  0 ≤ w.moisture ∧ w.moisture ≤ 100 ∧
  -50 ≤ w.temperature ∧ w.temperature ≤ 100 ∧
  0 ≤ w.ph ∧ w.ph ≤ 14 ∧
  0 ≤ w.battery ∧ w.battery ≤ 10

/-- The inter-tick wait of insert_wave_mysql.py, `time.sleep(interval)`,
with cancellation delivered as KeyboardInterrupt: measuring time in 0.1 s
granules, a sleep of `granules` granules interrupted `k` granules in ends
immediately at the interrupt.  Returns the granules actually spent in the
sleep. -/
def sleepInterruptible (granules : ℕ) (intr : Option ℕ) : ℕ :=
  match intr with
  | none => granules
  | some k => min k granules

end InsertWave

namespace SensorInserter

/-- The clamp ranges claimed for the random variant's fields: closed
ranges for the geolocated and bounded fields, lower bound 0 only for EC
and NPK. -/
def clampRangeRandom (r : Reading9) : Prop :=
  -90 ≤ r.latitude ∧ r.latitude ≤ 90 ∧
  -180 ≤ r.longitude ∧ r.longitude ≤ 180 ∧
  0 ≤ r.moisture ∧ r.moisture ≤ 100 ∧
  -10 ≤ r.temperature ∧ r.temperature ≤ 50 ∧
  0 ≤ r.ph ∧ r.ph ≤ 14 ∧
  0 ≤ r.ec ∧ 0 ≤ r.nitrogen ∧ 0 ≤ r.phosphorus ∧ 0 ≤ r.potassium

/-- Ranges of the `random.uniform` calls in generate_random_reading: a
uniform draw lies inside its interval. -/
def uniformDrawBounds (u : Noise9) : Prop :=
  -90 ≤ u.latitude ∧ u.latitude ≤ 90 ∧
  -180 ≤ u.longitude ∧ u.longitude ≤ 180 ∧
  0 ≤ u.moisture ∧ u.moisture ≤ 100 ∧
  -10 ≤ u.temperature ∧ u.temperature ≤ 50 ∧
  0 ≤ u.ph ∧ u.ph ≤ 14 ∧
  0 ≤ u.ec ∧ u.ec ≤ 5 ∧
  0 ≤ u.nitrogen ∧ u.nitrogen ≤ 100 ∧
  0 ≤ u.phosphorus ∧ u.phosphorus ≤ 100 ∧
  0 ≤ u.potassium ∧ u.potassium ≤ 200

/-- The clamp ranges for the fields that vary_reading actually clamps
(moisture, ph, ec, nitrogen, phosphorus, potassium). -/
def varyClampedBounds (r : Reading9) : Prop :=
  0 ≤ r.moisture ∧ r.moisture ≤ 100 ∧
  0 ≤ r.ph ∧ r.ph ≤ 14 ∧
  0 ≤ r.ec ∧ 0 ≤ r.nitrogen ∧ 0 ≤ r.phosphorus ∧ 0 ≤ r.potassium

/-- The all-zero reading, used as a concrete previous reading. -/
def zeroReading : Reading9 :=
  ⟨0, 0, 0, 0, 0, 0, 0, 0, 0⟩

/-- A concrete tick input: full-random regime with all-zero draws,
timestamp 0. -/
def tick0 : TickInput :=
  ⟨true, Noise9.zero, Noise9.zero, 0⟩

end SensorInserter

/-- C1 counterexample: starting from a previous reading with latitude 90
(itself emitted by generate_random_reading, whose uniform draw ranges over
[-90, 90]), a Gaussian latitude increment of 0.1 makes vary_reading emit
latitude 90.1, outside the declared clamp range [-90, 90]: the
continuation regime clamps neither latitude, longitude nor temperature. -/
theorem C1_counterexample :
    90 < (SensorInserter.vary_reading ⟨90, 0, 50, 20, 7, 1, 10, 10, 10⟩
      ⟨1/10, 0, 0, 0, 0, 0, 0, 0, 0⟩).latitude := by
  norm_num [SensorInserter.vary_reading, roundTo, round_eq]

/-- C1 (amended): every wave-mode reading satisfies all clamp ranges; a
full-random reading satisfies them whenever its uniform draws lie in their
call ranges (which they always do); and a continuation-regime reading
satisfies the ranges of the fields vary_reading clamps — moisture, ph, EC
and NPK.  Latitude, longitude and temperature are not clamped by
vary_reading and can leave their declared ranges (see the
counterexample). -/
theorem C1_clamp_ranges :
    (∀ e p nm nt np nb : ℝ,
      InsertWave.waveBounds (InsertWave.generate_values e p nm nt np nb)) ∧
    (∀ u : SensorInserter.Noise9, SensorInserter.uniformDrawBounds u →
      SensorInserter.clampRangeRandom (SensorInserter.generate_random_reading u)) ∧
    (∀ (prev : SensorInserter.Reading9) (g : SensorInserter.Noise9),
      SensorInserter.varyClampedBounds (SensorInserter.vary_reading prev g)) := by
  refine ⟨?_, ?_, ?_⟩
  · intro e p nm nt np nb
    unfold InsertWave.waveBounds InsertWave.generate_values
    refine ⟨?_, ?_, ?_, ?_, ?_, ?_, ?_, ?_⟩ <;>
      first
        | exact (InsertWave.clamp_mem _ (by norm_num)).1
        | exact (InsertWave.clamp_mem _ (by norm_num)).2
  · intro u hu
    obtain ⟨h1, h2, h3, h4, h5, h6, h7, h8, h9, h10, h11, h12, h13, h14,
      h15, h16, h17, h18⟩ := hu
    unfold SensorInserter.clampRangeRandom SensorInserter.generate_random_reading
    refine ⟨?_, ?_, ?_, ?_, ?_, ?_, ?_, ?_, ?_, ?_, ?_, ?_, ?_, ?_⟩
    · exact (roundTo_mem_Icc 7 (-900000000) 900000000 (by norm_num)
        (by norm_num) h1 h2).1
    · exact (roundTo_mem_Icc 7 (-900000000) 900000000 (by norm_num)
        (by norm_num) h1 h2).2
    · exact (roundTo_mem_Icc 7 (-1800000000) 1800000000 (by norm_num)
        (by norm_num) h3 h4).1
    · exact (roundTo_mem_Icc 7 (-1800000000) 1800000000 (by norm_num)
        (by norm_num) h3 h4).2
    · exact (roundTo_mem_Icc 2 0 10000 (by norm_num) (by norm_num) h5 h6).1
    · exact (roundTo_mem_Icc 2 0 10000 (by norm_num) (by norm_num) h5 h6).2
    · exact (roundTo_mem_Icc 2 (-1000) 5000 (by norm_num) (by norm_num) h7 h8).1
    · exact (roundTo_mem_Icc 2 (-1000) 5000 (by norm_num) (by norm_num) h7 h8).2
    · exact (roundTo_mem_Icc 2 0 1400 (by norm_num) (by norm_num) h9 h10).1
    · exact (roundTo_mem_Icc 2 0 1400 (by norm_num) (by norm_num) h9 h10).2
    · exact roundTo_nonneg 3 h11
    · exact roundTo_nonneg 3 h13
    · exact roundTo_nonneg 3 h15
    · exact roundTo_nonneg 3 h17
  · intro prev g
    unfold SensorInserter.varyClampedBounds SensorInserter.vary_reading
    refine ⟨?_, ?_, ?_, ?_, ?_, ?_, ?_, ?_⟩
    · exact (roundTo_mem_Icc 2 0 10000 (by norm_num) (by norm_num)
        (le_max_left _ _) (max_le (by norm_num) (min_le_left _ _))).1
    · exact (roundTo_mem_Icc 2 0 10000 (by norm_num) (by norm_num)
        (le_max_left _ _) (max_le (by norm_num) (min_le_left _ _))).2
    · exact (roundTo_mem_Icc 2 0 1400 (by norm_num) (by norm_num)
        (le_max_left _ _) (max_le (by norm_num) (min_le_left _ _))).1
    · exact (roundTo_mem_Icc 2 0 1400 (by norm_num) (by norm_num)
        (le_max_left _ _) (max_le (by norm_num) (min_le_left _ _))).2
    · exact roundTo_nonneg 3 (le_max_left _ _)
    · exact roundTo_nonneg 3 (le_max_left _ _)
    · exact roundTo_nonneg 3 (le_max_left _ _)
    · exact roundTo_nonneg 3 (le_max_left _ _)

/-- C1 witness: the all-zero uniform draw vector satisfies the uniform
draw ranges, and the reading generated from it satisfies the random
variant's clamp ranges. -/
theorem C1_clamp_ranges_witness :
    SensorInserter.uniformDrawBounds SensorInserter.Noise9.zero ∧
    SensorInserter.clampRangeRandom
      (SensorInserter.generate_random_reading SensorInserter.Noise9.zero) := by
  have h : SensorInserter.uniformDrawBounds SensorInserter.Noise9.zero := by
    norm_num [SensorInserter.uniformDrawBounds, SensorInserter.Noise9.zero]
  exact ⟨h, C1_clamp_ranges.2.1 SensorInserter.Noise9.zero h⟩


/-- Rounding commutes with a two-sided clamp whose bounds are exact at the
rounding precision. -/
theorem roundTo_clamp_comm (n : ℕ) (lo hi x : ℚ) (mlo mhi : ℤ)
    (hlo : lo * 10 ^ n = (mlo : ℚ)) (hhi : hi * 10 ^ n = (mhi : ℚ))
    (hle : lo ≤ hi) :
    roundTo n (max lo (min hi x)) = max lo (min hi (roundTo n x)) := by
  have flo : roundTo n lo = lo := roundTo_eq_self n lo mlo hlo
  have fhi : roundTo n hi = hi := roundTo_eq_self n hi mhi hhi
  rcases le_total x lo with h | h
  · have hxlo : roundTo n x ≤ lo := flo ▸ roundTo_mono n h
    rw [min_eq_right (h.trans hle), max_eq_left h, flo,
      min_eq_right (hxlo.trans hle), max_eq_left hxlo]
  · rcases le_total hi x with h2 | h2
    · have hhix : hi ≤ roundTo n x := fhi ▸ roundTo_mono n h2
      rw [min_eq_left h2, max_eq_right hle, fhi, min_eq_left hhix,
        max_eq_right hle]
    · have hxlo : lo ≤ roundTo n x := flo ▸ roundTo_mono n h
      have hxhi : roundTo n x ≤ hi := fhi ▸ roundTo_mono n h2
      rw [min_eq_right h2, max_eq_right h, min_eq_right hxhi,
        max_eq_right hxlo]

/-- Rounding commutes with a lower clamp at zero. -/
theorem roundTo_max_zero (n : ℕ) (x : ℚ) :
    roundTo n (max 0 x) = max 0 (roundTo n x) := by
  have f0 : roundTo n 0 = 0 := roundTo_eq_self n 0 0 (by norm_num)
  rcases le_total x 0 with h | h
  · have hx : roundTo n x ≤ 0 := f0 ▸ roundTo_mono n h
    rw [max_eq_left h, f0, max_eq_left hx]
  · have hx : 0 ≤ roundTo n x := f0 ▸ roundTo_mono n h
    rw [max_eq_right h, max_eq_right hx]

/-- C5 counterexample: with previous longitude 180 and a Gaussian
longitude increment of 0.5, vary_reading emits longitude 180.5: no clamp
is applied after (or before) the rounding of latitude, longitude or
temperature in the continuation variant, so clamping is not the final
operation there and the result can leave its range. -/
theorem C5_counterexample :
    180 < (SensorInserter.vary_reading ⟨0, 180, 50, 20, 7, 1, 10, 10, 10⟩
      ⟨0, 1/2, 0, 0, 0, 0, 0, 0, 0⟩).longitude := by
  norm_num [SensorInserter.vary_reading, roundTo, round_eq]

/-- C5 (amended): in the wave variant every emitted field is exactly
round-to-2-decimals followed by a final clamp.  In the continuation
variant the source clamps first and rounds last, but for every clamped
field the clamp bounds are exact at the rounding precision, so the emitted
value equals the round-then-clamp form as well; latitude, longitude and
temperature are rounded with no clamp at all.  Precisions are 2 decimals
for moisture/temperature/ph (and battery in wave mode), 3 for EC and NPK,
7 for coordinates. -/
theorem C5_round_then_clamp :
    (∀ e p nm nt np nb : ℝ,
      (InsertWave.generate_values e p nm nt np nb).moisture =
        InsertWave.clamp (InsertWave.roundR 2 (InsertWave.moisture_raw e p nm)) 0 100 ∧
      (InsertWave.generate_values e p nm nt np nb).temperature =
        InsertWave.clamp (InsertWave.roundR 2 (InsertWave.temperature_raw e p nt)) (-50) 100 ∧
      (InsertWave.generate_values e p nm nt np nb).ph =
        InsertWave.clamp (InsertWave.roundR 2 (InsertWave.ph_raw e p np)) 0 14 ∧
      (InsertWave.generate_values e p nm nt np nb).battery =
        InsertWave.clamp (InsertWave.roundR 2 (InsertWave.battery_raw e p nb)) 0 10) ∧
    (∀ (prev : SensorInserter.Reading9) (g : SensorInserter.Noise9),
      (SensorInserter.vary_reading prev g).moisture =
        max 0 (min 100 (roundTo 2 (prev.moisture + g.moisture))) ∧
      (SensorInserter.vary_reading prev g).ph =
        max 0 (min 14 (roundTo 2 (prev.ph + g.ph))) ∧
      (SensorInserter.vary_reading prev g).ec =
        max 0 (roundTo 3 (prev.ec + g.ec)) ∧
      (SensorInserter.vary_reading prev g).nitrogen =
        max 0 (roundTo 3 (prev.nitrogen + g.nitrogen)) ∧
      (SensorInserter.vary_reading prev g).phosphorus =
        max 0 (roundTo 3 (prev.phosphorus + g.phosphorus)) ∧
      (SensorInserter.vary_reading prev g).potassium =
        max 0 (roundTo 3 (prev.potassium + g.potassium)) ∧
      (SensorInserter.vary_reading prev g).latitude =
        roundTo 7 (prev.latitude + g.latitude) ∧
      (SensorInserter.vary_reading prev g).longitude =
        roundTo 7 (prev.longitude + g.longitude) ∧
      (SensorInserter.vary_reading prev g).temperature =
        roundTo 2 (prev.temperature + g.temperature)) := by
  refine ⟨fun e p nm nt np nb => ⟨rfl, rfl, rfl, rfl⟩, fun prev g => ?_⟩
  refine ⟨?_, ?_, ?_, ?_, ?_, ?_, rfl, rfl, rfl⟩
  · exact roundTo_clamp_comm 2 0 100 _ 0 10000 (by norm_num) (by norm_num)
      (by norm_num)
  · exact roundTo_clamp_comm 2 0 14 _ 0 1400 (by norm_num) (by norm_num)
      (by norm_num)
  · exact roundTo_max_zero 3 _
  · exact roundTo_max_zero 3 _
  · exact roundTo_max_zero 3 _
  · exact roundTo_max_zero 3 _

/-- C2: when the first insert fails and the reconnect yields a fresh
connection on which the retry succeeds, both loops close the old handle,
call their reconnect routine exactly once, and execute exactly two
inserts in total for the tick; the wave loop additionally reports the
tick as inserted. -/
theorem C2_retry_once :
    (∀ (c c2 : ℕ) (prev : SensorInserter.Reading9)
      (ti : SensorInserter.TickInput) (cause : SensorInserter.FailCause),
      SensorInserter.countReconnects (SensorInserter.tickLog
        (SensorInserter.tickStep (some c) prev ti
          ⟨true, .failure cause, some c2, .success⟩)) = 1 ∧
      SensorInserter.countInserts (SensorInserter.tickLog
        (SensorInserter.tickStep (some c) prev ti
          ⟨true, .failure cause, some c2, .success⟩)) = 2) ∧
    (∀ (V : Type) (conn newConn : ℕ) (v : V),
      InsertWave.countWReconnects
        (InsertWave.waveTickStep conn newConn v
          ⟨.operational, fun _ => true, .success⟩).log = 1 ∧
      InsertWave.countWInserts
        (InsertWave.waveTickStep conn newConn v
          ⟨.operational, fun _ => true, .success⟩).log = 2 ∧
      (InsertWave.waveTickStep conn newConn v
        ⟨.operational, fun _ => true, .success⟩).outcome = .inserted) := by
  constructor
  · intro c c2 prev ti cause
    exact ⟨rfl, rfl⟩
  · intro V conn newConn v
    refine ⟨?_, ?_, ?_⟩ <;>
      simp [InsertWave.waveTickStep, InsertWave.tryReconnectAux,
        InsertWave.countWReconnects, InsertWave.countWInserts]

/-- C3 counterexample: in sensor_inserter.py an unrecoverable insert
failure does not short-circuit: insert_reading returns False for every
`mysql.connector.Error` alike, so the loop still closes the handle, calls
connect_db (one reconnect observed, not zero) and retries the insert (two
insert calls, not one). -/
theorem C3_counterexample :
    SensorInserter.countReconnects (SensorInserter.tickLog
      (SensorInserter.tickStep (some 0) SensorInserter.zeroReading
        SensorInserter.tick0
        ⟨true, .failure .unrecoverable, some 1, .success⟩)) = 1 ∧
    SensorInserter.countInserts (SensorInserter.tickLog
      (SensorInserter.tickStep (some 0) SensorInserter.zeroReading
        SensorInserter.tick0
        ⟨true, .failure .unrecoverable, some 1, .success⟩)) = 2 := by
  exact ⟨rfl, rfl⟩

/-- C3 (amended): in insert_wave_mysql.py a failure that is not an
OperationalError skips the retry entirely — zero reconnect calls, a
single insert attempt, outcome droppedOther.  In sensor_inserter.py
failures are not classified: every insert failure, unrecoverable ones
included, triggers exactly one connect_db call. -/
theorem C3_unrecoverable_short_circuit :
    (∀ (V : Type) (conn newConn : ℕ) (v : V) (opens : ℕ → Bool)
      (i2 : InsertWave.WIns),
      InsertWave.countWReconnects
        (InsertWave.waveTickStep conn newConn v ⟨.otherError, opens, i2⟩).log = 0 ∧
      InsertWave.countWInserts
        (InsertWave.waveTickStep conn newConn v ⟨.otherError, opens, i2⟩).log = 1 ∧
      (InsertWave.waveTickStep conn newConn v
        ⟨.otherError, opens, i2⟩).outcome = .droppedOther) ∧
    (∀ (c : ℕ) (b : Bool) (rc : Option ℕ) (prev : SensorInserter.Reading9)
      (ti : SensorInserter.TickInput) (cause : SensorInserter.FailCause)
      (i2 : SensorInserter.InsertRes),
      SensorInserter.countReconnects (SensorInserter.tickLog
        (SensorInserter.tickStep (some c) prev ti ⟨b, .failure cause, rc, i2⟩)) = 1) := by
  constructor
  · intro V conn newConn v opens i2
    refine ⟨rfl, rfl, rfl⟩
  · intro c b rc prev ti cause i2
    cases b <;> cases rc <;>
      simp [SensorInserter.tickStep, SensorInserter.tickLog,
        SensorInserter.countReconnects]

/-- C4: evaluation of the main loop of sensor_inserter.py at the failing
store behaviour.  Tick 1: the insert fails and connect_db returns None;
the tick itself completes (the loop survives it and schedules the next
tick).  Tick 2: insert_reading is called with conn = None, `None.cursor()`
raises an AttributeError that no handler catches, and the loop
terminates — a write failure has ended the run, contradicting the claim.
The wave loop, by contrast, continues on every store behaviour (its step
function waveTickStep is total and every branch yields a next state). -/
theorem C4_crash_after_failed_reconnect :
    SensorInserter.runSensor (some 0) SensorInserter.zeroReading
      [(SensorInserter.tick0, ⟨true, .failure .transient, none, .success⟩),
       (SensorInserter.tick0, ⟨true, .success, none, .success⟩)] =
    .error .noneConn := by
  rfl

/-- C6: for every store behaviour — insert succeeded, failed with any
cause, reconnect succeeded or not, retry succeeded or not — a tick that
starts with a live connection stores exactly the reading generated on
that tick in last_readings; the generated reading is genReading, a
function of the tick's draws and the previous reading only, so the
generated sequence is independent of the store's responses. -/
theorem C6_state_advances_regardless :
    ∀ (c : ℕ) (prev : SensorInserter.Reading9)
      (ti : SensorInserter.TickInput) (beh : SensorInserter.StoreBeh),
      SensorInserter.tickLast (SensorInserter.tickStep (some c) prev ti beh) =
        some (SensorInserter.genReading ti prev) := by
  intro c prev ti beh
  obtain ⟨b, i1, rc, i2⟩ := beh
  cases i1 <;> cases rc <;> rfl

/-- C10: when a retry happens, it re-sends exactly the values of the
first attempt.  In sensor_inserter.py both insert_reading calls of a tick
receive the same generated reading and the same recorded_at timestamp
(captured before the first attempt); in insert_wave_mysql.py both
cur.execute calls receive the same value tuple computed by
generate_values at the top of the loop body. -/
theorem C10_retry_same_values :
    (∀ (b : Bool) (c c2 : ℕ) (prev : SensorInserter.Reading9)
      (ti : SensorInserter.TickInput) (cause : SensorInserter.FailCause)
      (i2 : SensorInserter.InsertRes),
      SensorInserter.insertArgs (SensorInserter.tickLog
        (SensorInserter.tickStep (some c) prev ti ⟨b, .failure cause, some c2, i2⟩)) =
      [(SensorInserter.genReading ti prev, ti.t),
       (SensorInserter.genReading ti prev, ti.t)]) ∧
    (∀ (V : Type) (conn newConn : ℕ) (v : V) (i2 : InsertWave.WIns),
      InsertWave.wInsertVals
        (InsertWave.waveTickStep conn newConn v ⟨.operational, fun _ => true, i2⟩).log =
      [v, v]) := by
  constructor
  · intro b c c2 prev ti cause i2
    cases b <;>
      simp [SensorInserter.tickStep, SensorInserter.tickLog,
        SensorInserter.insertArgs]
  · intro V conn newConn v i2
    cases i2 <;>
      simp [InsertWave.waveTickStep, InsertWave.tryReconnectAux,
        InsertWave.wInsertVals]

theorem waitSleeps_le_fuel (flag : ℕ → Bool) :
    ∀ fuel k, SensorInserter.waitSleeps flag fuel k ≤ fuel := by
  intro fuel
  induction fuel with
  | zero => intro k; simp [SensorInserter.waitSleeps]
  | succ n ih =>
    intro k
    unfold SensorInserter.waitSleeps
    by_cases h : flag k = true
    · simp [h]
    · simp only [h, Bool.false_eq_true, if_false]
      have := ih (k + 1)
      omega

theorem waitSleeps_le_stop (s : ℕ) :
    ∀ fuel k,
      SensorInserter.waitSleeps (fun j => decide (s ≤ j)) fuel k ≤ s - k := by
  intro fuel
  induction fuel with
  | zero => intro k; simp [SensorInserter.waitSleeps]
  | succ n ih =>
    intro k
    unfold SensorInserter.waitSleeps
    rcases Nat.lt_or_ge k s with h | h
    · have hd : decide (s ≤ k) = false := by simp; omega
      simp only [hd, Bool.false_eq_true, if_false]
      have := ih (k + 1)
      omega
    · have hd : decide (s ≤ k) = true := by simp [h]
      simp [hd]

/-- C7: measuring the inter-tick wait in 0.1 s granules.  In
sensor_inserter.py the wait is `fuel` iterations of check-flag-then-sleep;
if the stop signal arrives during sleep number `s` (so the flag is visible
at every check from the `s`-th on, the flag `fun j => decide (s ≤ j)`),
the wait performs at most `s` sleeps — it never sleeps past the 0.1 s
granule in which the signal arrived, so the residual wait after the signal
is under one granule (100 ms), not the full interval (`fuel` = 40 granules
for the default 4 s interval; the bound `≤ fuel` is also proved).  In
insert_wave_mysql.py cancellation is a KeyboardInterrupt that aborts
`time.sleep` at the granule in which it arrives: the granules slept are at
most `k`, the arrival offset. -/
theorem C7_cancellation_latency :
    (∀ n s : ℕ,
      SensorInserter.waitSleeps (fun j => decide (s ≤ j)) n 0 ≤ s ∧
      SensorInserter.waitSleeps (fun j => decide (s ≤ j)) n 0 ≤ n) ∧
    (∀ granules k : ℕ, InsertWave.sleepInterruptible granules (some k) ≤ k) := by
  refine ⟨fun n s => ⟨?_, waitSleeps_le_fuel _ n 0⟩, fun granules k => ?_⟩
  · have := waitSleeps_le_stop s n 0
    omega
  · exact min_le_left _ _

/-- C8: with the same jitter draws, every non-decaying wave field is
periodic in elapsed time with the wave period: the angle at
`elapsed + period` is the angle at `elapsed` plus exactly 2π, so the raw
sinusoid values of moisture, temperature and ph — and hence their rounded,
clamped emitted values — coincide; battery is excluded (it carries the
linear decay term). -/
theorem C8_wave_periodicity :
    ∀ e p nm nt np nb : ℝ, p ≠ 0 →
      InsertWave.moisture_raw (e + p) p nm = InsertWave.moisture_raw e p nm ∧
      InsertWave.temperature_raw (e + p) p nt =
        InsertWave.temperature_raw e p nt ∧
      InsertWave.ph_raw (e + p) p np = InsertWave.ph_raw e p np ∧
      (InsertWave.generate_values (e + p) p nm nt np nb).moisture =
        (InsertWave.generate_values e p nm nt np nb).moisture ∧
      (InsertWave.generate_values (e + p) p nm nt np nb).temperature =
        (InsertWave.generate_values e p nm nt np nb).temperature ∧
      (InsertWave.generate_values (e + p) p nm nt np nb).ph =
        (InsertWave.generate_values e p nm nt np nb).ph := by
  intro e p nm nt np nb hp
  have hang : InsertWave.angle (e + p) p = InsertWave.angle e p + 2 * Real.pi := by
    unfold InsertWave.angle
    field_simp
    ring
  have hm : InsertWave.moisture_raw (e + p) p nm = InsertWave.moisture_raw e p nm := by
    unfold InsertWave.moisture_raw
    rw [hang, Real.sin_add_two_pi]
  have ht : InsertWave.temperature_raw (e + p) p nt =
      InsertWave.temperature_raw e p nt := by
    unfold InsertWave.temperature_raw
    rw [hang]
    have h1 : InsertWave.angle e p + 2 * Real.pi + 0.5 =
        InsertWave.angle e p + 0.5 + 2 * Real.pi := by ring
    rw [h1, Real.sin_add_two_pi]
  have hph : InsertWave.ph_raw (e + p) p np = InsertWave.ph_raw e p np := by
    unfold InsertWave.ph_raw
    rw [hang]
    have h1 : InsertWave.angle e p + 2 * Real.pi + 1.0 =
        InsertWave.angle e p + 1.0 + 2 * Real.pi := by ring
    rw [h1, Real.sin_add_two_pi]
  refine ⟨hm, ht, hph, ?_, ?_, ?_⟩ <;>
    unfold InsertWave.generate_values <;>
    simp only [hm, ht, hph]

/-- C8 witness: at elapsed 0 with period 60 and zero jitter, the moisture
value one full period later equals the value now. -/
theorem C8_wave_periodicity_witness :
    (60 : ℝ) ≠ 0 ∧
    (InsertWave.generate_values (0 + 60) 60 0 0 0 0).moisture =
      (InsertWave.generate_values 0 60 0 0 0 0).moisture := by
  have h : (60 : ℝ) ≠ 0 := by norm_num
  exact ⟨h, (C8_wave_periodicity 0 60 0 0 0 0 h).2.2.2.1⟩

/-- C9: each raw wave value matches the spec formula
`baseline + amplitude * sin(2π·elapsed/period + phase) + jitter` with
phases exactly 0 (moisture), 0.5 (temperature), 1.0 (ph) and 2.0
(battery), and the linear decay term `(0.02 per hour / 3600) * elapsed`
is subtracted from battery and from no other field. -/
theorem C9_wave_formula :
    ∀ e p nm nt np nb : ℝ,
      InsertWave.moisture_raw e p nm = InsertWave.waveField 40 20 0 nm e p ∧
      InsertWave.temperature_raw e p nt =
        InsertWave.waveField 18 5 0.5 nt e p ∧
      InsertWave.ph_raw e p np = InsertWave.waveField 6.8 0.3 1.0 np e p ∧
      InsertWave.battery_raw e p nb =
        InsertWave.waveField 3.7 0.03 2.0 nb e p - 0.02 / 3600 * e := by
  intro e p nm nt np nb
  unfold InsertWave.moisture_raw InsertWave.temperature_raw InsertWave.ph_raw
    InsertWave.battery_raw InsertWave.waveField InsertWave.angle
  have harg : 2 * Real.pi * (e / p) = 2 * Real.pi * e / p := by ring
  refine ⟨?_, ?_, ?_, ?_⟩ <;> rw [harg] <;> ring_nf
